import Mathlib

/-!
Shallow embedding of the Lake Titicaca system-dynamics model
(`src/core/modelo.py`, class `ModeloTiticaca`) over exact rationals.
Python floats are modelled as rationals; the numpy state vector
`[volumen, nutrientes, lemna, oxigeno]` becomes the structure `Estado`;
the parameter and scenario dictionaries become structures whose fields
are the keys the model reads (lookups with defaults on a dictionary in
which every key is present are plain field reads).
-/

namespace Titicaca

/-- The parameter dictionary of `ModeloTiticaca`: one field per key the
model reads (defaults from `src/config/parametros.py` are concrete values
of this structure, not part of the type). -/
structure Parametros where
  volumen_inicial : ℚ
  nutrientes_inicial : ℚ
  lemna_inicial : ℚ
  oxigeno_inicial : ℚ
  area_lago : ℚ
  precipitacion_anual : ℚ
  evaporacion_anual : ℚ
  flujo_rios : ℚ
  extraccion_humana : ℚ
  descarga_puno : ℚ
  descarga_juliaca : ℚ
  descarga_otras : ℚ
  tasa_crecimiento_lemna : ℚ
  tasa_mortalidad_lemna : ℚ
  nutrientes_optimo_lemna : ℚ
  capacidad_carga_lemna : ℚ
  tasa_absorcion_nutrientes_lemna : ℚ
  km_absorcion_lemna : ℚ
  tasa_sedimentacion_nutrientes : ℚ
  tasa_reoxigenacion : ℚ
  oxigeno_saturacion : ℚ
  consumo_o2_lemna : ℚ
  consumo_o2_descomposicion : ℚ
  tiempo_simulacion : ℚ
  paso_tiempo : ℚ

/-- The scenario dictionary: the keys read by the core model. -/
structure Escenario where
  eficiencia_tratamiento_puno : ℚ
  eficiencia_tratamiento_juliaca : ℚ
  remocion_mecanica_lemna : ℚ
deriving Repr, DecidableEq

/-- The four-component state vector `[volumen_m3, nutrientes_mgL,
lemna_ton, oxigeno_mgL]`. -/
structure Estado where
  volumen : ℚ
  nutrientes : ℚ
  lemna : ℚ
  oxigeno : ℚ
deriving Repr, DecidableEq

/-- `self.UMBRAL_SATURACION = 0.95`. -/
def UMBRAL_SATURACION : ℚ := 95 / 100

/-- `calcular_porcentaje_capacidad`: fraction of carrying capacity the
current biomass occupies; `0.0` when capacity is non-positive. -/
def calcular_porcentaje_capacidad (p : Parametros) (lemna_ton : ℚ) : ℚ :=
  if p.capacidad_carga_lemna ≤ 0 then 0
  else lemna_ton / p.capacidad_carga_lemna

/-- `crecimiento_lemna`: net biomass growth rate. -/
def crecimiento_lemna (p : Parametros) (nutrientes_mgL lemna_ton : ℚ) : ℚ :=
  if lemna_ton ≤ 0 then 0
  else
    let Km := p.nutrientes_optimo_lemna
    let factor_nutrientes := nutrientes_mgL / (nutrientes_mgL + Km)
    let K := max p.capacidad_carga_lemna 1
    let factor_capacidad := max 0 (1 - lemna_ton / K)
    let tasa_crecimiento := p.tasa_crecimiento_lemna
    let tasa_mortalidad := p.tasa_mortalidad_lemna * (1 - factor_nutrientes)
    let crecimiento_neto :=
      lemna_ton * (tasa_crecimiento * factor_nutrientes * factor_capacidad - tasa_mortalidad)
    max crecimiento_neto (-lemna_ton)

/-- `consumo_nutrientes_lemna`: nutrient uptake by the biomass, in
concentration units per unit time. -/
def consumo_nutrientes_lemna (p : Parametros) (nutrientes_mgL lemna_ton volumen_m3 : ℚ) : ℚ :=
  if lemna_ton ≤ 1 then 0
  else if nutrientes_mgL ≤ 0 ∨ volumen_m3 ≤ 0 then 0
  else
    let pct := calcular_porcentaje_capacidad p lemna_ton
    if UMBRAL_SATURACION ≤ pct then 0
    else
      let tasa_abs := p.tasa_absorcion_nutrientes_lemna
      let Km := p.km_absorcion_lemna
      let factor_saturacion := nutrientes_mgL / (nutrientes_mgL + Km)
      let factor_eficiencia0 :=
        if pct < 1 / 2 then pct * 2
        else (UMBRAL_SATURACION - pct) / (UMBRAL_SATURACION - 1 / 2)
      let factor_eficiencia := max 0 (min 1 factor_eficiencia0)
      let absorcion_ton := tasa_abs * lemna_ton * factor_saturacion * factor_eficiencia
      let absorcion_mg := absorcion_ton * 10 ^ 9
      let volumen_L := volumen_m3 * 1000
      let consumo := absorcion_mg / volumen_L
      max 0 (min consumo (nutrientes_mgL * (1 / 10)))

/-- Body of `dinamica_oxigeno` with the occupancy fraction `pct` as an
explicit argument (the source computes `pct` from the biomass first and
then uses only `pct` and the other three inputs). -/
def dinamica_oxigeno_pct (p : Parametros) (oxigeno_mgL lemna_ton nutrientes_mgL pct : ℚ) : ℚ :=
  let O2_sat := p.oxigeno_saturacion
  let tasa_reox := p.tasa_reoxigenacion
  let reox_natural := tasa_reox * (O2_sat - oxigeno_mgL)
  let dO_dt :=
    if pct < UMBRAL_SATURACION then
      let produccion_o2 := (5 / 100) * lemna_ton * (pct / UMBRAL_SATURACION)
      let consumo_respiracion := (1 / 1000) * lemna_ton
      reox_natural + produccion_o2 - consumo_respiracion
    else
      let factor_bloqueo := min ((pct - UMBRAL_SATURACION) / (5 / 100)) 1
      let reox_reducida := reox_natural * (1 - factor_bloqueo * (9 / 10))
      let consumo_alto := (1 / 100) * lemna_ton
      let produccion_o2 := (0 : ℚ)
      reox_reducida + produccion_o2 - consumo_alto
  let consumo_descomp := p.consumo_o2_descomposicion * nutrientes_mgL
  dO_dt - consumo_descomp

/-- `dinamica_oxigeno`: oxygen rate of change. -/
def dinamica_oxigeno (p : Parametros) (oxigeno_mgL lemna_ton nutrientes_mgL : ℚ) : ℚ :=
  dinamica_oxigeno_pct p oxigeno_mgL lemna_ton nutrientes_mgL
    (calcular_porcentaje_capacidad p lemna_ton)

/-- `flujo_entrada_agua`. -/
def flujo_entrada_agua (p : Parametros) : ℚ :=
  p.area_lago * p.precipitacion_anual + p.flujo_rios

/-- `flujo_salida_agua`. -/
def flujo_salida_agua (p : Parametros) : ℚ :=
  p.area_lago * p.evaporacion_anual + p.extraccion_humana

/-- `descarga_contaminantes`. -/
def descarga_contaminantes (p : Parametros) (e : Escenario) : ℚ :=
  max 0 (p.descarga_puno * (1 - e.eficiencia_tratamiento_puno)
    + p.descarga_juliaca * (1 - e.eficiencia_tratamiento_juliaca)
    + p.descarga_otras)

/-- The clamping `ecuaciones` applies to its state argument before any
use: volume floored at 1, the other three components floored at 0. -/
def clamp_estado (y : Estado) : Estado :=
  ⟨max y.volumen 1, max y.nutrientes 0, max y.lemna 0, max y.oxigeno 0⟩

/-- `ecuaciones`: the rate-equation evaluator; returns the derivative
vector `[dV_dt, dN_dt, dL_dt, dO_dt]`. -/
def ecuaciones (p : Parametros) (e : Escenario) (y : Estado) : Estado :=
  let volumen_m3 := max y.volumen 1
  let nutrientes_mgL := max y.nutrientes 0
  let lemna_ton := max y.lemna 0
  let oxigeno_mgL := max y.oxigeno 0
  let dV_dt := flujo_entrada_agua p - flujo_salida_agua p
  let carga_mass := descarga_contaminantes p e
  let carga_conc := carga_mass * 10 ^ 6 / volumen_m3
  let consumo_lemna := consumo_nutrientes_lemna p nutrientes_mgL lemna_ton volumen_m3
  let sedimentacion := p.tasa_sedimentacion_nutrientes * nutrientes_mgL
  let dilucion := if 0 < volumen_m3 then -nutrientes_mgL * (dV_dt / volumen_m3) else 0
  let dN_dt := carga_conc - consumo_lemna - sedimentacion + dilucion
  let dL_dt0 := crecimiento_lemna p nutrientes_mgL lemna_ton
  let remocion := max 0 e.remocion_mecanica_lemna
  let dL_dt :=
    if 0 < remocion then dL_dt0 - min remocion (max (lemna_ton + dL_dt0) 0) else dL_dt0
  let dO_dt := dinamica_oxigeno p oxigeno_mgL lemna_ton nutrientes_mgL
  ⟨dV_dt, dN_dt, dL_dt, dO_dt⟩

/-- The stored simulation result: sample times, sampled states (the four
arrays of the Python dictionary, zipped), and the success flag. -/
structure Resultado where
  tiempo : List ℚ
  trayectoria : List Estado
  exito : Bool
deriving Repr, DecidableEq

/-- The mutable attributes of a `ModeloTiticaca` instance. -/
structure Modelo where
  params : Parametros
  escenario : Escenario
  estado_inicial : Estado
  estado_actual : Estado
  oxigeno_base : ℚ
  resultado : Option Resultado

/-- `__init__`: builds the initial state (biomass floored at 1) and
records the baseline initial oxygen in `oxigeno_base`. -/
def init_modelo (p : Parametros) (e : Escenario) : Modelo :=
  let y0 : Estado :=
    ⟨p.volumen_inicial, p.nutrientes_inicial, max p.lemna_inicial 1, p.oxigeno_inicial⟩
  ⟨p, e, y0, y0, p.oxigeno_inicial, none⟩

/-- `remover_lemna_total`: biomass to the near-zero floor 1.0, nutrients
and volume kept, oxygen reset to `oxigeno_base`; returns `True`. -/
def remover_lemna_total (m : Modelo) : Modelo × Bool :=
  ({ m with estado_actual :=
      ⟨m.estado_actual.volumen, m.estado_actual.nutrientes, 1, m.oxigeno_base⟩ }, true)

/-- An IEEE-style Python float value: a finite rational or one of the
special values. No rounding is modelled; only the special values matter
for the claims settled here. -/
inductive PyFloat where
  | fin (q : ℚ)
  | pinf
  | ninf
  | nan
deriving Repr, DecidableEq

/-- A Python value passed to `agregar_lemna`: a number, a string (with
the float value `float(s)` would produce, `none` when `float(s)` raises
`ValueError`), or a value of a type `float()` rejects with `TypeError`. -/
inductive PyVal where
  | num (x : PyFloat)
  | strv (conv : Option PyFloat)
  | otherVal
deriving Repr, DecidableEq

/-- `float(v)`: `some` converted value, `none` when the conversion
raises `ValueError` or `TypeError`. -/
def pyfloat_of (v : PyVal) : Option PyFloat :=
  match v with
  | .num x => some x
  | .strv conv => conv
  | .otherVal => none

/-- The Python comparison `x <= 0` on a float. `nan <= 0` is `False`. -/
def pyle_cero (x : PyFloat) : Bool :=
  match x with
  | .fin q => decide (q ≤ 0)
  | .pinf => false
  | .ninf => true
  | .nan => false

/-- IEEE addition restricted to the cases `agregar_lemna` can reach. -/
def pyadd (a b : PyFloat) : PyFloat :=
  match a, b with
  | .nan, _ => .nan
  | _, .nan => .nan
  | .fin q, .fin r => .fin (q + r)
  | .fin _, .pinf => .pinf
  | .fin _, .ninf => .ninf
  | .pinf, .fin _ => .pinf
  | .pinf, .pinf => .pinf
  | .pinf, .ninf => .nan
  | .ninf, .fin _ => .ninf
  | .ninf, .pinf => .nan
  | .ninf, .ninf => .ninf

/-- The state vector with the biomass entry as a Python float: the
numpy array `estado_actual` is a float64 vector, so the in-place update
of `agregar_lemna` can store non-finite values. -/
structure EstadoPy where
  volumen : ℚ
  nutrientes : ℚ
  lemna : PyFloat
  oxigeno : ℚ
deriving Repr, DecidableEq

/-- `agregar_lemna(cantidad)`: converts with `float`, rejects on
conversion error or on `cantidad <= 0`, otherwise adds the amount to
the biomass entry of the state and reports success. -/
def agregar_lemna (s : EstadoPy) (cantidad : PyVal) : EstadoPy × Bool :=
  match pyfloat_of cantidad with
  | none => (s, false)
  | some c =>
    if pyle_cero c then (s, false)
    else ({ s with lemna := pyadd s.lemna c }, true)

/-- Python `int()` on a rational: truncation toward zero. -/
def int_trunc (q : ℚ) : ℤ :=
  if 0 ≤ q then ⌊q⌋ else ⌈q⌉

/-- `num_pasos = int(t_final / paso) + 1` from `simular`. -/
def num_pasos (p : Parametros) : ℕ :=
  (int_trunc (p.tiempo_simulacion / p.paso_tiempo) + 1).toNat

/-- `np.linspace(a, b, n)`: `n` evenly spaced samples from `a` to `b`
inclusive; `[a]` when `n = 1`. -/
def linspace (a b : ℚ) (n : ℕ) : List ℚ :=
  if n = 0 then []
  else if n = 1 then [a]
  else (List.range n).map (fun i : ℕ => a + (b - a) * (i : ℚ) / ((n : ℚ) - 1))

/-- The message of the `RuntimeError` raised on solver failure. -/
def mensaje_no_convergencia : String :=
  "Error: the solver reports non-convergence"

/-- `simular`: the integration driver. The external `solve_ivp` call is
abstracted as `solver`, mapping the evaluation grid and the initial
state to `some` trajectory (one state per grid point) on convergence
and `none` on failure, in which case the driver raises (`Except.error`)
before any attribute of the model is assigned. -/
def simular (solver : List ℚ → Estado → Option (List Estado)) (m : Modelo) :
    Modelo × Except String Resultado :=
  let t_final := m.params.tiempo_simulacion
  if t_final ≤ 0 then
    let r : Resultado := ⟨[0], [m.estado_actual], true⟩
    ({ m with resultado := some r }, Except.ok r)
  else
    let t_eval := linspace 0 t_final (num_pasos m.params)
    match solver t_eval m.estado_actual with
    | none => (m, Except.error mensaje_no_convergencia)
    | some ys =>
      let r : Resultado := ⟨t_eval, ys, true⟩
      ({ m with
          resultado := some r
          estado_actual := ys.getLastD m.estado_actual }, Except.ok r)

/-- The default parameter values (`PARAMETROS_DEFAULT` in
`src/config/parametros.py`), with the two absorption keys that file
omits filled in by the `setdefault` calls of `__init__`. -/
def P0 : Parametros where
  volumen_inicial := 893 * 10 ^ 9
  nutrientes_inicial := 3 / 100
  lemna_inicial := 300
  oxigeno_inicial := 8
  area_lago := 8372 * 10 ^ 6
  precipitacion_anual := 3 / 4
  evaporacion_anual := 31 / 20
  flujo_rios := 65 * 10 ^ 8
  extraccion_humana := 15 * 10 ^ 7
  descarga_puno := 12
  descarga_juliaca := 20
  descarga_otras := 10
  tasa_crecimiento_lemna := 6 / 5
  tasa_mortalidad_lemna := 1
  nutrientes_optimo_lemna := 1 / 10
  capacidad_carga_lemna := 2000
  tasa_absorcion_nutrientes_lemna := 1 / 10 ^ 8
  km_absorcion_lemna := 1 / 50
  tasa_sedimentacion_nutrientes := 1 / 4
  tasa_reoxigenacion := 5
  oxigeno_saturacion := 17 / 2
  consumo_o2_lemna := 1 / 500
  consumo_o2_descomposicion := 1 / 20
  tiempo_simulacion := 20
  paso_tiempo := 1 / 10

/-- The base scenario: zero treatment efficiencies, zero removal. -/
def E0 : Escenario where
  eficiencia_tratamiento_puno := 0
  eficiencia_tratamiento_juliaca := 0
  remocion_mecanica_lemna := 0

lemma max_max_idem (a b : ℚ) : max (max a b) b = max a b := by
  rw [max_assoc, max_self]

/-- C7: `remover_lemna_total` sets biomass to the near-zero floor 1,
keeps the nutrient concentration bit-identical, resets oxygen exactly
to the recorded baseline initial oxygen, keeps the volume, touches no
other attribute, and returns the success indicator `True`. -/
theorem remover_lemna_total_spec (m : Modelo) :
    (remover_lemna_total m).2 = true
    ∧ (remover_lemna_total m).1.estado_actual.lemna = 1
    ∧ (remover_lemna_total m).1.estado_actual.nutrientes = m.estado_actual.nutrientes
    ∧ (remover_lemna_total m).1.estado_actual.oxigeno = m.oxigeno_base
    ∧ (remover_lemna_total m).1.estado_actual.volumen = m.estado_actual.volumen
    ∧ (remover_lemna_total m).1.params = m.params
    ∧ (remover_lemna_total m).1.escenario = m.escenario
    ∧ (remover_lemna_total m).1.estado_inicial = m.estado_inicial
    ∧ (remover_lemna_total m).1.oxigeno_base = m.oxigeno_base
    ∧ (remover_lemna_total m).1.resultado = m.resultado :=
  ⟨rfl, rfl, rfl, rfl, rfl, rfl, rfl, rfl, rfl, rfl⟩

/-- C10: the oxygen rate function never reads the parameter
`consumo_o2_lemna` (the respiration coefficients 0.001 and 0.01 are
hard-coded), so two parameter sets that differ only in that field yield
the same oxygen derivative at every state. -/
theorem dinamica_oxigeno_noninterference (p : Parametros) (x o l n : ℚ) :
    dinamica_oxigeno { p with consumo_o2_lemna := x } o l n
      = dinamica_oxigeno p o l n := rfl

/-- C3: the oxygen derivative always consists of the reaeration term
`tasa_reox * (O2_sat - O2)` minus the decomposition term
`coef_descomp * N`; below 95% occupancy it adds photosynthesis
`0.05 * L * (pct / 0.95)` and subtracts respiration `0.001 * L`; at or
above 95% the reaeration term is scaled by
`1 - 0.9 * min ((pct - 0.95) / 0.05, 1)`, photosynthesis is zero, and
respiration uses the larger coefficient `0.01 > 0.001`. -/
theorem dinamica_oxigeno_spec (p : Parametros) (o l n : ℚ) :
    (dinamica_oxigeno p o l n =
      (if calcular_porcentaje_capacidad p l < 95 / 100 then
        p.tasa_reoxigenacion * (p.oxigeno_saturacion - o)
          + (5 / 100) * l * (calcular_porcentaje_capacidad p l / (95 / 100))
          - (1 / 1000) * l
      else
        p.tasa_reoxigenacion * (p.oxigeno_saturacion - o)
          * (1 - min ((calcular_porcentaje_capacidad p l - 95 / 100) / (5 / 100)) 1 * (9 / 10))
          - (1 / 100) * l)
      - p.consumo_o2_descomposicion * n)
    ∧ (1 / 1000 : ℚ) < 1 / 100 := by
  constructor
  · simp only [dinamica_oxigeno, dinamica_oxigeno_pct, UMBRAL_SATURACION]
    split <;> ring
  · norm_num

/-- C9: the rate evaluator clamps every state component before use
(volume to the strictly positive floor 1, the rest to 0): evaluating it
at any state equals evaluating it at the clamped state, the clamped
volume is at least 1 (so the divisions by the volume are over a
strictly positive number), and no clamped component is negative. -/
theorem ecuaciones_clamp_spec (p : Parametros) (e : Escenario) (y : Estado) :
    ecuaciones p e y = ecuaciones p e (clamp_estado y)
    ∧ 1 ≤ (clamp_estado y).volumen
    ∧ 0 < (clamp_estado y).volumen
    ∧ 0 ≤ (clamp_estado y).nutrientes
    ∧ 0 ≤ (clamp_estado y).lemna
    ∧ 0 ≤ (clamp_estado y).oxigeno := by
  refine ⟨?_, le_max_right _ _, lt_of_lt_of_le one_pos (le_max_right _ _),
    le_max_right _ _, le_max_right _ _, le_max_right _ _⟩
  simp only [ecuaciones, clamp_estado, max_max_idem]

/-- `crecimiento_lemna` written as a single `max`: for non-negative
biomass the branch on `lemna_ton ≤ 0` is absorbed into the formula
(at biomass 0 the formula is 0 as well). -/
lemma crecimiento_lemna_eq (p : Parametros) (n l : ℚ) (hl : 0 ≤ l) :
    crecimiento_lemna p n l =
      max (l * (p.tasa_crecimiento_lemna * (n / (n + p.nutrientes_optimo_lemna))
          * max 0 (1 - l / max p.capacidad_carga_lemna 1)
          - p.tasa_mortalidad_lemna * (1 - n / (n + p.nutrientes_optimo_lemna)))) (-l) := by
  unfold crecimiento_lemna
  rcases lt_or_eq_of_le hl with h | h
  · rw [if_neg (not_le.mpr h)]
  · rw [← h, if_pos le_rfl]
    simp

lemma neg_le_crecimiento_lemna (p : Parametros) (n l : ℚ) (hl : 0 ≤ l) :
    -l ≤ crecimiento_lemna p n l := by
  rw [crecimiento_lemna_eq p n l hl]
  exact le_max_right _ _

/-- The biomass derivative as the amended specification words it:
logistic growth with Michaelis-Menten limitation and a mortality term
`tasa_mortalidad * (1 - nutrient_factor)` that is modulated by the
nutrient factor (not constant), floored at `-L`, then capped mechanical
removal subtracted; no addition term exists. -/
def dL_spec (p : Parametros) (e : Escenario) (n l : ℚ) : ℚ :=
  let fN := n / (n + p.nutrientes_optimo_lemna)
  let g := max (l * (p.tasa_crecimiento_lemna * fN
      * max 0 (1 - l / max p.capacidad_carga_lemna 1)
      - p.tasa_mortalidad_lemna * (1 - fN))) (-l)
  let rem := max 0 e.remocion_mecanica_lemna
  if 0 < rem then g - min rem (max (l + g) 0) else g

/-- C2 counterexample: at the default parameters, nutrient
concentration 0.1 and biomass 1000, the growth rate computed by the
code is -200, while the formula of the claim, with the CONSTANT
mortality parameter, gives -700: in the code the mortality rate is
`tasa_mortalidad * (1 - nutrient_factor)`, not the bare parameter. -/
theorem crecimiento_mortalidad_constante_refuted :
    crecimiento_lemna P0 (1 / 10) 1000 = -200
    ∧ max (1000 * (P0.tasa_crecimiento_lemna
        * ((1 / 10) / (1 / 10 + P0.nutrientes_optimo_lemna))
        * max 0 (1 - 1000 / max P0.capacidad_carga_lemna 1)
        - P0.tasa_mortalidad_lemna)) (-(1000 : ℚ)) = -700
    ∧ (-200 : ℚ) ≠ -700 :=
  ⟨by norm_num [crecimiento_lemna, P0], by norm_num [P0], by norm_num⟩

/-- C2 amended: the biomass component of the derivative vector equals
growth `L * (rate * fN * max(0, 1 - L/K) - mortality * (1 - fN))`
floored at `-L`, with the capped mechanical removal subtracted when the
scenario removal rate is positive and no addition term; the result
never drops below `-L` (the clamped biomass). -/
theorem lemna_derivative_amended (p : Parametros) (e : Escenario) (y : Estado) :
    (ecuaciones p e y).lemna = dL_spec p e (max y.nutrientes 0) (max y.lemna 0)
    ∧ -(max y.lemna 0) ≤ (ecuaciones p e y).lemna := by
  have hl : (0 : ℚ) ≤ max y.lemna 0 := le_max_right _ _
  have hg := neg_le_crecimiento_lemna p (max y.nutrientes 0) (max y.lemna 0) hl
  constructor
  · simp only [ecuaciones, dL_spec]
    rw [crecimiento_lemna_eq p _ _ hl]
  · simp only [ecuaciones]
    set g := crecimiento_lemna p (max y.nutrientes 0) (max y.lemna 0) with hgdef
    split
    · have h1 : max (max y.lemna 0 + g) 0 = max y.lemna 0 + g :=
        max_eq_left (by linarith)
      have h2 : min (max 0 e.remocion_mecanica_lemna) (max (max y.lemna 0 + g) 0)
          ≤ max y.lemna 0 + g := by
        rw [h1]
        exact min_le_right _ _
      linarith
    · exact hg

/-- The efficiency factor as the specification words it: a tent rising
linearly from 0 at zero occupancy to 1 at half occupancy, falling
linearly back to 0 at the 0.95 saturation threshold. -/
def tent (pct : ℚ) : ℚ :=
  if pct < 1 / 2 then pct / (1 / 2)
  else (UMBRAL_SATURACION - pct) / (UMBRAL_SATURACION - 1 / 2)

/-- C1: the nutrient-uptake term is 0 when biomass is at or below the
near-zero threshold 1, when `N ≤ 0` or `V ≤ 0`, or when occupancy is at
or above 0.95; otherwise it equals
`tasa_abs * L * N/(N+Km)`, scaled by the tent efficiency factor,
converted to concentration via the volume, capped at `0.1 * N`. -/
theorem consumo_nutrientes_lemna_spec (p : Parametros) (n l v : ℚ)
    (htasa : 0 ≤ p.tasa_absorcion_nutrientes_lemna)
    (hkm : 0 ≤ p.km_absorcion_lemna) :
    (l ≤ 1 → consumo_nutrientes_lemna p n l v = 0)
    ∧ (n ≤ 0 → consumo_nutrientes_lemna p n l v = 0)
    ∧ (v ≤ 0 → consumo_nutrientes_lemna p n l v = 0)
    ∧ (95 / 100 ≤ calcular_porcentaje_capacidad p l →
        consumo_nutrientes_lemna p n l v = 0)
    ∧ tent 0 = 0 ∧ tent (1 / 2) = 1 ∧ tent (95 / 100) = 0
    ∧ (1 < l → 0 < n → 0 < v → calcular_porcentaje_capacidad p l < 95 / 100 →
        consumo_nutrientes_lemna p n l v =
          min (p.tasa_absorcion_nutrientes_lemna * l * (n / (n + p.km_absorcion_lemna))
              * tent (calcular_porcentaje_capacidad p l) * 10 ^ 9 / (v * 1000))
            (n * (1 / 10))) := by
  refine ⟨?_, ?_, ?_, ?_, by norm_num [tent], by norm_num [tent, UMBRAL_SATURACION],
    by norm_num [tent, UMBRAL_SATURACION], ?_⟩
  · intro h
    rw [consumo_nutrientes_lemna, if_pos h]
  · intro h
    by_cases h1 : l ≤ 1
    · rw [consumo_nutrientes_lemna, if_pos h1]
    · rw [consumo_nutrientes_lemna, if_neg h1, if_pos (Or.inl h)]
  · intro h
    by_cases h1 : l ≤ 1
    · rw [consumo_nutrientes_lemna, if_pos h1]
    · rw [consumo_nutrientes_lemna, if_neg h1, if_pos (Or.inr h)]
  · intro h
    by_cases h1 : l ≤ 1
    · rw [consumo_nutrientes_lemna, if_pos h1]
    · by_cases h2 : n ≤ 0 ∨ v ≤ 0
      · rw [consumo_nutrientes_lemna, if_neg h1, if_pos h2]
      · rw [consumo_nutrientes_lemna, if_neg h1, if_neg h2]
        simp only [UMBRAL_SATURACION]
        rw [if_pos h]
  · intro hl hn hv hpct
    have hl1 : ¬ l ≤ 1 := not_le.mpr hl
    have hnv : ¬ (n ≤ 0 ∨ v ≤ 0) := by
      rintro (h | h) <;> linarith
    simp only [consumo_nutrientes_lemna, UMBRAL_SATURACION]
    rw [if_neg hl1, if_neg hnv, if_neg (not_le.mpr hpct)]
    set pct := calcular_porcentaje_capacidad p l with hpctdef
    have hpct0 : 0 ≤ pct := by
      rw [hpctdef, calcular_porcentaje_capacidad]
      split
      · exact le_rfl
      · rename_i hc
        exact div_nonneg (by linarith) (by linarith [not_le.mp hc])
    have heff : (if pct < 1 / 2 then pct * 2 else (95 / 100 - pct) / (95 / 100 - 1 / 2))
        = tent pct := by
      rw [tent, UMBRAL_SATURACION]
      split <;> ring
    have h0t : 0 ≤ tent pct := by
      rw [tent, UMBRAL_SATURACION]
      split
      · positivity
      · exact div_nonneg (by linarith) (by norm_num)
    have h1t : tent pct ≤ 1 := by
      rw [tent, UMBRAL_SATURACION]
      split
      · rename_i hlt
        rw [div_le_one (by norm_num)]
        linarith
      · rename_i hge
        rw [div_le_one (by norm_num)]
        push_neg at hge
        linarith
    have hfsat : 0 ≤ n / (n + p.km_absorcion_lemna) :=
      div_nonneg (by linarith) (by linarith)
    have hcons : 0 ≤ p.tasa_absorcion_nutrientes_lemna * l
        * (n / (n + p.km_absorcion_lemna)) * tent pct * 10 ^ 9 / (v * 1000) := by
      apply div_nonneg
      · apply mul_nonneg
        · exact mul_nonneg (mul_nonneg (mul_nonneg htasa (by linarith)) hfsat) h0t
        · norm_num
      · nlinarith
    have hn10 : 0 ≤ n * (1 / 10 : ℚ) := by positivity
    rw [heff, min_comm 1 (tent pct), min_eq_left h1t, max_eq_right h0t,
      max_eq_right (le_min hcons hn10)]

/-- C1 witness: at the default parameters, nutrients 0.03 mg/L, biomass
1000 t (half capacity) and volume 1e9, the uptake equals the capped
Michaelis-Menten tent formula. -/
theorem consumo_nutrientes_lemna_spec_witness :
    (1 : ℚ) < 1000
    ∧ consumo_nutrientes_lemna P0 (3 / 100) 1000 (10 ^ 9) =
        min (P0.tasa_absorcion_nutrientes_lemna * 1000
            * ((3 / 100) / (3 / 100 + P0.km_absorcion_lemna))
            * tent (calcular_porcentaje_capacidad P0 1000) * 10 ^ 9 / ((10 ^ 9 : ℚ) * 1000))
          ((3 / 100) * (1 / 10)) := by
  refine ⟨by norm_num, ?_⟩
  exact (consumo_nutrientes_lemna_spec P0 (3 / 100) 1000 (10 ^ 9) (by norm_num [P0])
    (by norm_num [P0])).2.2.2.2.2.2.2 (by norm_num) (by norm_num) (by norm_num)
    (by norm_num [calcular_porcentaje_capacidad, P0])

/-- Parameters for the C4 counterexample: capacity 1, reaeration rate
1, no decomposition consumption; otherwise the defaults. -/
def Pc : Parametros :=
  { P0 with capacidad_carga_lemna := 1, tasa_reoxigenacion := 1, consumo_o2_descomposicion := 0 }

/-- C4 counterexample: at capacity 1, biomass 1 (occupancy 1 ≥ 0.95)
and oxygen 100 far above saturation 8.5, the reaeration term is a large
negative number; attenuating it RAISES the oxygen derivative, so the
saturated derivative is strictly GREATER than the same state evaluated
at occupancy 0.94, refuting the claimed strict inequality. -/
theorem oxigeno_saturado_strictly_lower_refuted :
    UMBRAL_SATURACION ≤ calcular_porcentaje_capacidad Pc 1
    ∧ dinamica_oxigeno_pct Pc 100 1 0 (94 / 100) < dinamica_oxigeno Pc 100 1 0 := by
  constructor
  · norm_num [calcular_porcentaje_capacidad, UMBRAL_SATURACION, Pc, P0]
  · norm_num [dinamica_oxigeno, dinamica_oxigeno_pct, calcular_porcentaje_capacidad,
      UMBRAL_SATURACION, Pc, P0, min_self]

/-- C4 amended: whenever occupancy is at or above 0.95, the nutrient
uptake is exactly zero and the oxygen derivative takes the attenuated
form `reox * (1 - 0.9 * min((pct - 0.95)/0.05, 1)) - 0.01 L - descomp * N`;
provided additionally that the current oxygen does not exceed the
saturation concentration (so the reaeration term is non-negative) and
the reaeration rate is non-negative, the derivative is strictly lower
than the same state evaluated with occupancy fixed at 0.94. -/
theorem saturacion_invariant_amended (p : Parametros) (o l n v : ℚ)
    (hsat : UMBRAL_SATURACION ≤ calcular_porcentaje_capacidad p l)
    (ho : o ≤ p.oxigeno_saturacion)
    (hreox : 0 ≤ p.tasa_reoxigenacion) :
    consumo_nutrientes_lemna p n l v = 0
    ∧ dinamica_oxigeno p o l n =
        p.tasa_reoxigenacion * (p.oxigeno_saturacion - o)
          * (1 - min ((calcular_porcentaje_capacidad p l - UMBRAL_SATURACION) / (5 / 100)) 1
              * (9 / 10))
          - (1 / 100) * l - p.consumo_o2_descomposicion * n
    ∧ dinamica_oxigeno p o l n < dinamica_oxigeno_pct p o l n (94 / 100) := by
  have hK : 0 < p.capacidad_carga_lemna := by
    by_contra hc
    push_neg at hc
    rw [calcular_porcentaje_capacidad, if_pos hc] at hsat
    norm_num [UMBRAL_SATURACION] at hsat
  have hl : 0 < l := by
    have hq := hsat
    rw [calcular_porcentaje_capacidad, if_neg (not_le.mpr hK)] at hq
    have h2 : UMBRAL_SATURACION * p.capacidad_carga_lemna ≤ l := (le_div_iff₀ hK).mp hq
    rw [UMBRAL_SATURACION] at h2
    nlinarith
  have hr : 0 ≤ p.tasa_reoxigenacion * (p.oxigeno_saturacion - o) :=
    mul_nonneg hreox (by linarith)
  have hfb0 : 0 ≤ min ((calcular_porcentaje_capacidad p l - UMBRAL_SATURACION) / (5 / 100)) 1 :=
    le_min (div_nonneg (by linarith) (by norm_num)) zero_le_one
  have hfb1 : min ((calcular_porcentaje_capacidad p l - UMBRAL_SATURACION) / (5 / 100)) 1 ≤ 1 :=
    min_le_right _ _
  refine ⟨?_, ?_, ?_⟩
  · by_cases h1 : l ≤ 1
    · rw [consumo_nutrientes_lemna, if_pos h1]
    · by_cases h2 : n ≤ 0 ∨ v ≤ 0
      · rw [consumo_nutrientes_lemna, if_neg h1, if_pos h2]
      · rw [consumo_nutrientes_lemna, if_neg h1, if_neg h2, if_pos hsat]
  · rw [dinamica_oxigeno, dinamica_oxigeno_pct, if_neg (not_lt.mpr hsat)]
    ring
  · rw [dinamica_oxigeno, dinamica_oxigeno_pct, if_neg (not_lt.mpr hsat),
      dinamica_oxigeno_pct, if_pos (by norm_num [UMBRAL_SATURACION])]
    have hprod : 0 ≤ min ((calcular_porcentaje_capacidad p l - UMBRAL_SATURACION) / (5 / 100)) 1
        * (p.tasa_reoxigenacion * (p.oxigeno_saturacion - o)) := mul_nonneg hfb0 hr
    rw [UMBRAL_SATURACION] at hprod hfb0 hfb1 ⊢
    nlinarith [hprod, hl, hr, hfb0, hfb1]

/-- C4 witness: defaults with biomass 1900 t (occupancy exactly 0.95),
oxygen 8 below saturation 8.5: uptake is zero and the saturated oxygen
derivative is strictly below the occupancy-0.94 evaluation. -/
theorem saturacion_invariant_amended_witness :
    consumo_nutrientes_lemna P0 (3 / 100) 1900 (10 ^ 9) = 0
    ∧ dinamica_oxigeno P0 8 1900 (3 / 100) < dinamica_oxigeno_pct P0 8 1900 (3 / 100) (94 / 100) := by
  have h := saturacion_invariant_amended P0 8 1900 (3 / 100) (10 ^ 9)
    (by norm_num [calcular_porcentaje_capacidad, UMBRAL_SATURACION, P0])
    (by norm_num [P0]) (by norm_num [P0])
  exact ⟨h.1, h.2.2⟩

/-- A concrete state for the `agregar_lemna` claims: the freshly
constructed default state with finite biomass 300 t. -/
def sPy0 : EstadoPy := ⟨893 * 10 ^ 9, 3 / 100, PyFloat.fin 300, 8⟩

/-- C8 counterexample: `float("inf")`-style input is NOT a finite
positive number, yet `agregar_lemna` accepts it (returns success and
mutates the biomass to infinity); `nan` is likewise accepted, because
the only check performed is `cantidad <= 0`, which is `False` for both. -/
theorem agregar_lemna_finito_refuted :
    (agregar_lemna sPy0 (PyVal.num PyFloat.pinf)).2 = true
    ∧ (agregar_lemna sPy0 (PyVal.num PyFloat.pinf)).1.lemna = PyFloat.pinf
    ∧ (agregar_lemna sPy0 (PyVal.num PyFloat.pinf)).1.lemna ≠ sPy0.lemna
    ∧ (agregar_lemna sPy0 (PyVal.num PyFloat.nan)).2 = true :=
  ⟨rfl, rfl, by simp [agregar_lemna, pyfloat_of, pyle_cero, pyadd, sPy0], rfl⟩

/-- C8 amended: `agregar_lemna` returns failure, with the whole state
unchanged, exactly when the input is not convertible by `float` or when
the converted value compares `≤ 0` (this accepts `+inf` and `nan`,
which are not finite); for a finite positive amount it returns success
and adds exactly that amount to the biomass, leaving volume, nutrients
and oxygen untouched. -/
theorem agregar_lemna_amended (s : EstadoPy) (v : PyVal) :
    ((agregar_lemna s v).2 = false ↔
      pyfloat_of v = none ∨ ∃ c, pyfloat_of v = some c ∧ pyle_cero c = true)
    ∧ ((agregar_lemna s v).2 = false → (agregar_lemna s v).1 = s)
    ∧ (∀ q : ℚ, 0 < q →
        agregar_lemna s (PyVal.num (PyFloat.fin q)) =
          ({ s with lemna := pyadd s.lemna (PyFloat.fin q) }, true)) := by
  refine ⟨?_, ?_, ?_⟩
  · rcases hv : pyfloat_of v with _ | c
    · simp [agregar_lemna, hv]
    · by_cases hlc : pyle_cero c <;> simp [agregar_lemna, hv, hlc]
  · intro h
    rcases hv : pyfloat_of v with _ | c
    · simp [agregar_lemna, hv]
    · by_cases hlc : pyle_cero c
      · simp [agregar_lemna, hv, hlc]
      · simp [agregar_lemna, hv, hlc] at h
  · intro q hq
    simp [agregar_lemna, pyfloat_of, pyle_cero, not_le.mpr hq]

/-- C8 witness: adding 500 to the fresh default state succeeds and
yields biomass 800, all other components unchanged. -/
theorem agregar_lemna_amended_witness :
    (0 : ℚ) < 500
    ∧ agregar_lemna sPy0 (PyVal.num (PyFloat.fin 500)) =
        ({ sPy0 with lemna := pyadd sPy0.lemna (PyFloat.fin 500) }, true) :=
  ⟨by norm_num,
    (agregar_lemna_amended sPy0 (PyVal.num (PyFloat.fin 500))).2.2 500 (by norm_num)⟩

lemma linspace_length (a b : ℚ) (n : ℕ) : (linspace a b n).length = n := by
  unfold linspace
  split
  · simp [*]
  · split
    · simp [*]
    · rw [List.length_map, List.length_range]

lemma linspace_getElem (a b : ℚ) (n i : ℕ) (h2 : 2 ≤ n) (hi : i < n) :
    (linspace a b n)[i]? = some (a + (b - a) * i / ((n : ℚ) - 1)) := by
  unfold linspace
  rw [if_neg (by omega), if_neg (by omega), List.getElem?_map, List.getElem?_range hi]
  rfl

/-- C5 amended: for horizon `T > 0` and step `0 < s ≤ T`, a converging
run returns a trajectory sampled at exactly `⌊T/s⌋ + 1` uniformly
spaced times from 0 to T inclusive, with the first trajectory sample
the state at call time and the success flag true, and afterwards the
current state is the last trajectory sample. (When `T < s` the grid
degenerates to the single time 0 and does not reach `T`.) -/
theorem simular_grid_amended (m : Modelo)
    (solver : List ℚ → Estado → Option (List Estado)) (ys : List Estado)
    (hT : 0 < m.params.tiempo_simulacion)
    (hs : 0 < m.params.paso_tiempo)
    (hsT : m.params.paso_tiempo ≤ m.params.tiempo_simulacion)
    (hsolve : solver (linspace 0 m.params.tiempo_simulacion (num_pasos m.params))
        m.estado_actual = some ys)
    (hhead : ys.head? = some m.estado_actual) :
    (simular solver m).2 =
      Except.ok ⟨linspace 0 m.params.tiempo_simulacion (num_pasos m.params), ys, true⟩
    ∧ num_pasos m.params =
        (⌊m.params.tiempo_simulacion / m.params.paso_tiempo⌋).toNat + 1
    ∧ (linspace 0 m.params.tiempo_simulacion (num_pasos m.params)).length = num_pasos m.params
    ∧ (∀ i : ℕ, i < num_pasos m.params →
        (linspace 0 m.params.tiempo_simulacion (num_pasos m.params))[i]? =
          some ((i : ℚ) * (m.params.tiempo_simulacion / ((num_pasos m.params : ℚ) - 1))))
    ∧ (linspace 0 m.params.tiempo_simulacion (num_pasos m.params))[0]? = some 0
    ∧ (linspace 0 m.params.tiempo_simulacion (num_pasos m.params))[num_pasos m.params - 1]? =
        some m.params.tiempo_simulacion
    ∧ ys.head? = some m.estado_actual
    ∧ (simular solver m).1.estado_actual = ys.getLastD m.estado_actual
    ∧ (simular solver m).1.resultado =
        some ⟨linspace 0 m.params.tiempo_simulacion (num_pasos m.params), ys, true⟩ := by
  have hne : ¬ m.params.tiempo_simulacion ≤ 0 := not_le.mpr hT
  have hds : 1 ≤ m.params.tiempo_simulacion / m.params.paso_tiempo :=
    (one_le_div hs).mpr hsT
  have hfl : 1 ≤ ⌊m.params.tiempo_simulacion / m.params.paso_tiempo⌋ := by
    rw [Int.le_floor]
    exact_mod_cast hds
  have hit : int_trunc (m.params.tiempo_simulacion / m.params.paso_tiempo)
      = ⌊m.params.tiempo_simulacion / m.params.paso_tiempo⌋ := by
    rw [int_trunc, if_pos (by linarith)]
  have hn_eq : num_pasos m.params
      = (⌊m.params.tiempo_simulacion / m.params.paso_tiempo⌋).toNat + 1 := by
    rw [num_pasos, hit]
    omega
  have hn2 : 2 ≤ num_pasos m.params := by
    rw [hn_eq]
    omega
  have hcast : (2 : ℚ) ≤ (num_pasos m.params : ℚ) := by exact_mod_cast hn2
  have hne0 : ((num_pasos m.params : ℚ) - 1) ≠ 0 := by linarith
  have hsim : simular solver m =
      ({ m with
          resultado :=
            some ⟨linspace 0 m.params.tiempo_simulacion (num_pasos m.params), ys, true⟩
          estado_actual := ys.getLastD m.estado_actual },
        Except.ok ⟨linspace 0 m.params.tiempo_simulacion (num_pasos m.params), ys, true⟩) := by
    rw [simular.eq_def, if_neg hne]
    simp only [hsolve]
  refine ⟨by rw [hsim], hn_eq, linspace_length _ _ _, ?_, ?_, ?_, hhead,
    by rw [hsim], by rw [hsim]⟩
  · intro i hi
    rw [linspace_getElem 0 _ _ i hn2 hi]
    congr 1
    ring
  · rw [linspace_getElem 0 _ _ 0 hn2 (by omega)]
    norm_num
  · rw [linspace_getElem 0 _ _ (num_pasos m.params - 1) hn2 (by omega)]
    have hc : ((num_pasos m.params - 1 : ℕ) : ℚ) = (num_pasos m.params : ℚ) - 1 := by
      have h1 : 1 ≤ num_pasos m.params := by omega
      push_cast [h1]
      ring
    rw [hc]
    congr 1
    field_simp

/-- The freshly constructed default model: default parameters, base
scenario. -/
def m0 : Modelo := init_modelo P0 E0

/-- A converging stub solver: one copy of the initial state per grid
point. -/
def solver0 : List ℚ → Estado → Option (List Estado) :=
  fun t_eval y0 => some (t_eval.map (fun _ => y0))

/-- The trajectory `solver0` produces on the default 201-point grid. -/
def ys0 : List Estado := (linspace 0 20 201).map (fun _ => m0.estado_actual)

/-- C5 witness: with the default horizon 20 and step 0.1, the grid has
`⌊20/0.1⌋ + 1 = 201` samples running from 0 to 20 inclusive, and the
run succeeds with the stub trajectory. -/
theorem simular_grid_amended_witness :
    (simular solver0 m0).2 = Except.ok ⟨linspace 0 20 201, ys0, true⟩
    ∧ (linspace 0 20 201).length = 201
    ∧ (linspace 0 20 201)[0]? = some 0
    ∧ (linspace 0 20 201)[200]? = some 20
    ∧ ys0.head? = some m0.estado_actual := by
  have hT20 : m0.params.tiempo_simulacion = 20 := rfl
  have hnum : num_pasos m0.params = 201 := by
    norm_num [num_pasos, int_trunc, m0, init_modelo, P0]
    omega
  have hsolve : solver0 (linspace 0 m0.params.tiempo_simulacion (num_pasos m0.params))
      m0.estado_actual = some ys0 := by
    rw [hT20, hnum]
    rfl
  have hhead : ys0.head? = some m0.estado_actual := rfl
  obtain ⟨h1, h2, h3, h4, h5, h6, h7, h8, h9⟩ :=
    simular_grid_amended m0 solver0 ys0 (by norm_num [m0, init_modelo, P0])
      (by norm_num [m0, init_modelo, P0]) (by norm_num [m0, init_modelo, P0]) hsolve hhead
  rw [hT20, hnum] at h1 h3 h5 h6
  norm_num at h6
  exact ⟨h1, h3, h5, h6, hhead⟩

/-- The default model with the horizon shortened below one step: the
grid then degenerates to the single time 0. -/
def mEdge : Modelo := init_modelo { P0 with tiempo_simulacion := 1 / 20 } E0

/-- C5 counterexample: horizon 0.05 > 0 and step 0.1 > 0, the run
succeeds, the sample count is `⌊0.05/0.1⌋ + 1 = 1`, but the sample
times are `[0]`, which does not include the horizon 0.05: the grid is
not "from 0 to T inclusive" for every positive horizon and step. -/
theorem simular_inclusive_refuted :
    0 < mEdge.params.tiempo_simulacion
    ∧ 0 < mEdge.params.paso_tiempo
    ∧ (simular solver0 mEdge).2 = Except.ok ⟨[0], [mEdge.estado_actual], true⟩
    ∧ mEdge.params.tiempo_simulacion ∉ ([0] : List ℚ) := by
  have hne : ¬ mEdge.params.tiempo_simulacion ≤ 0 := by
    norm_num [mEdge, init_modelo, P0]
  have hnum : num_pasos mEdge.params = 1 := by
    norm_num [num_pasos, int_trunc, mEdge, init_modelo, P0]
  have hgrid : linspace 0 mEdge.params.tiempo_simulacion 1 = [0] := by
    norm_num [linspace]
  refine ⟨by norm_num [mEdge, init_modelo, P0], by norm_num [mEdge, init_modelo, P0], ?_, ?_⟩
  · rw [simular.eq_def, if_neg hne, hnum, hgrid]
    rfl
  · norm_num [mEdge, init_modelo, P0]

/-- C6: if the solver reports non-convergence, `simular` raises
(returns the error), yields no trajectory, and leaves every attribute
of the model, including the stored result and the current state,
exactly as before the call. -/
theorem simular_fallo_spec (m : Modelo)
    (solver : List ℚ → Estado → Option (List Estado))
    (hT : 0 < m.params.tiempo_simulacion)
    (hfail : solver (linspace 0 m.params.tiempo_simulacion (num_pasos m.params))
        m.estado_actual = none) :
    (simular solver m).2 = Except.error mensaje_no_convergencia
    ∧ (simular solver m).1 = m := by
  have hne : ¬ m.params.tiempo_simulacion ≤ 0 := not_le.mpr hT
  rw [simular.eq_def, if_neg hne]
  simp only [hfail]
  constructor <;> trivial

/-- A solver that always reports failure. -/
def solverFail : List ℚ → Estado → Option (List Estado) := fun _ _ => none

/-- C6 witness: a failing run on the default model errors out and
leaves the model untouched. -/
theorem simular_fallo_spec_witness :
    (simular solverFail m0).2 = Except.error mensaje_no_convergencia
    ∧ (simular solverFail m0).1 = m0 :=
  simular_fallo_spec m0 solverFail (by norm_num [m0, init_modelo, P0]) rfl

end Titicaca
